import Mathlib

/-
  Verification development for the ease-sdk transport / error-normalization core.

  Shallow embedding of:
    - src/utils/errors.ts   (ErrorCode, EaseSDKError, NetworkError,
                             mapHTTPStatusToErrorCode, createErrorFromAPIResponse,
                             handleUnknownError)
    - src/api/index.ts      (internalApi: the transport entry point)
    - src/core/telemetry.ts (_notify observer fan-out)
    - src/wallet/index.ts   (getWalletBalance, getWalletHistory; the later of the two
                             snapshots in that file, the one with input validation,
                             lines 205-493)

  Modelling conventions:
    - JavaScript runtime values are the inductive JSValue; numbers are modelled as
      exact integers or NaN (JSNum).  Satoshi / wei amounts are integers in every
      response the spec talks about, and integers below 2^53 are exact in JS doubles,
      so this models the arithmetic the code performs on them exactly.
    - A thrown JS value is Thrown: an EaseSDKError instance, a generic Error
      (name/message), or a plain non-error value.
    - The network is an oracle: internalApi receives the outcome of its single
      fetch call (FetchOutcome); the wallet functions receive the response
      envelope their one api call would produce.
    - Telemetry: _notify.request/response/error iterate the registered observer
      list without any try/catch (src/core/telemetry.ts lines 14-18).  Whether
      some registered observer callback throws when invoked is modelled by
      ObserverBehavior (none = every observer returns normally; the observer
      list starts empty, so `quietObservers` is the default environment).
      logger.* and emitLogEvent are internally guarded (they catch their own
      errors) and are modelled as no-ops.
    - The EaseSDKError wall-clock `timestamp` field and correlation request ids
      are elided: no claim mentions them and they are never compared.
-/

namespace EaseSDK

/-! ## JavaScript value model -/

/-- A JavaScript number: an exact integer, or NaN.  Integer-valued doubles below
2^53 (every satoshi/wei amount in the spec) are represented exactly. -/
inductive JSNum where
  | int (n : Int)
  | nan
deriving DecidableEq

/-- A JavaScript runtime value (as produced by JSON parsing plus undefined). -/
inductive JSValue where
  | vnull
  | vundefined
  | vbool (b : Bool)
  | vnum (n : JSNum)
  | vstr (s : String)
  | varr (elems : List JSValue)
  | vobj (fields : List (String × JSValue))

/-- Property lookup on an object literal; the last binding for a key wins,
matching JS object-literal / spread semantics. -/
def getProp (fields : List (String × JSValue)) (k : String) : Option JSValue :=
  List.lookup k fields.reverse

/-- The JS `typeof` operator (note: `typeof null` is "object"). -/
def jsTypeof : JSValue → String
  | .vnull => "object"
  | .vundefined => "undefined"
  | .vbool _ => "boolean"
  | .vnum _ => "number"
  | .vstr _ => "string"
  | .varr _ => "object"
  | .vobj _ => "object"

/-- JS truthiness. -/
def truthy : JSValue → Bool
  | .vnull => false
  | .vundefined => false
  | .vbool b => b
  | .vnum (.int n) => n != 0
  | .vnum .nan => false
  | .vstr s => s != ""
  | .varr _ => true
  | .vobj _ => true

/-- Truthiness of a possibly-absent value (an absent field reads as undefined). -/
def truthyOpt : Option JSValue → Bool
  | none => false
  | some v => truthy v

/-- A generic JS Error object (name and message), e.g. a TypeError or the
AbortError raised by an aborted fetch. -/
structure GenError where
  name : String
  message : String
deriving DecidableEq

/-- Optional chaining `v?.k`: undefined on nullish receivers and on receivers
that do not carry the property. -/
def optMember : JSValue → String → JSValue
  | .vobj fs, k => (getProp fs k).getD .vundefined
  | _, _ => .vundefined

/-- Plain property access `v.k`: a TypeError on null/undefined, the field value
(or undefined) otherwise.  The fields the code reads never exist on primitives
or arrays, so those read as undefined. -/
def jsMember : JSValue → String → Except GenError JSValue
  | .vnull, k => .error ⟨"TypeError", "Cannot read properties of null (reading " ++ k ++ ")"⟩
  | .vundefined, k => .error ⟨"TypeError", "Cannot read properties of undefined (reading " ++ k ++ ")"⟩
  | .vobj fs, k => .ok ((getProp fs k).getD .vundefined)
  | _, _ => .ok .vundefined

/-- JS ToNumber on the value shapes the code meets.  Decimal integer strings
parse exactly; other strings and objects are approximated by NaN (no claim
exercises fractional or exotic coercions). -/
def toNumber : JSValue → JSNum
  | .vnum n => n
  | .vnull => .int 0
  | .vundefined => .nan
  | .vbool b => .int (if b then 1 else 0)
  | .vstr s => if s = "" then .int 0 else (match s.toInt? with | some n => .int n | none => .nan)
  | .varr _ => .nan
  | .vobj _ => .nan

/-- JS subtraction on numbers (NaN-absorbing). -/
def jsSub : JSNum → JSNum → JSNum
  | .int a, .int b => .int (a - b)
  | _, _ => .nan

mutual

/-- JS String() coercion for the value shapes the code meets (array join is the
comma-join of coerced elements; plain objects print "[object Object]"). -/
def jsToString : JSValue → String
  | .vnull => "null"
  | .vundefined => "undefined"
  | .vbool b => if b then "true" else "false"
  | .vnum (.int n) => toString n
  | .vnum .nan => "NaN"
  | .vstr s => s
  | .varr xs => String.intercalate "," (jsToStringList xs)
  | .vobj _ => "[object Object]"

def jsToStringList : List JSValue → List String
  | [] => []
  | x :: xs => jsToString x :: jsToStringList xs

end

/-- Left-pad a numeral with zeros to 8 digits. -/
def pad8 (s : String) : String :=
  String.mk (List.replicate (8 - s.length) '0') ++ s

/-- Decimal rendering of a satoshi count divided by 1e8: the exact value of
`(n / 1e8).toFixed(8)` for an integer-valued JS number n (the division is exact
to 8 decimal places, so no rounding occurs). -/
def formatSats (n : Int) : String :=
  let a := n.natAbs
  (if n < 0 then "-" else "") ++ toString (a / 100000000) ++ "." ++ pad8 (toString (a % 100000000))

/-- `(x / 1e8).toFixed(8)` on a JS number (NaN prints "NaN"). -/
def toFixedSats : JSNum → String
  | .nan => "NaN"
  | .int n => formatSats n

/-- `(x / 1e18).toFixed(8)` on a JS number: round x/1e10 to the nearest integer
(ties to the larger value, as the toFixed specification does) and render /1e8. -/
def toFixedWei : JSNum → String
  | .nan => "NaN"
  | .int n => formatSats (Int.fdiv (n + 5000000000) 10000000000)

/-! ## Error taxonomy (src/utils/errors.ts) -/

/-- The closed ErrorCode enumeration (src/utils/errors.ts lines 1-36). -/
inductive ErrorCode where
  | NETWORK_ERROR
  | API_ERROR
  | TIMEOUT_ERROR
  | RATE_LIMIT_ERROR
  | INVALID_CREDENTIALS
  | AUTHENTICATION_FAILED
  | SESSION_EXPIRED
  | UNAUTHORIZED
  | INVALID_PHONE_NUMBER
  | INVALID_OTP
  | OTP_EXPIRED
  | OTP_SEND_FAILED
  | OTP_VERIFY_FAILED
  | WEBAUTHN_NOT_SUPPORTED
  | PASSKEY_CREATION_FAILED
  | PASSKEY_AUTHENTICATION_FAILED
  | USER_CANCELLED
  | INVALID_INPUT
  | MISSING_REQUIRED_FIELD
  | INVALID_FORMAT
  | UNKNOWN_ERROR
  | INTERNAL_ERROR
  | SERVICE_UNAVAILABLE
deriving DecidableEq

/-- The EaseSDKError domain error (src/utils/errors.ts lines 47-80): a kind, a
message, an optional HTTP status, an optional cause (always a generic Error in
the paths modelled here) and a structured context.  The wall-clock timestamp
field is elided (never read or compared by the code under verification). -/
structure EaseSDKError where
  name : String := "EaseSDKError"
  code : ErrorCode
  message : String
  statusCode : Option Int := none
  cause : Option GenError := none
  context : List (String × JSValue) := []

/-- A thrown JS value: an EaseSDKError instance, a generic Error instance, or a
plain non-error value (string, null, number, ...). -/
inductive Thrown where
  | sdkErr (e : EaseSDKError)
  | genErr (g : GenError)
  | val (v : JSValue)

/-- The `error instanceof Error` test: EaseSDKError and generic Errors pass. -/
def isErrorInstance : Thrown → Bool
  | .sdkErr _ => true
  | .genErr _ => true
  | .val _ => false

/-- The NetworkError subclass constructor (src/utils/errors.ts lines 82-92):
an EaseSDKError with code NETWORK_ERROR and name "NetworkError". -/
def NetworkError (message : String) (cause : Option GenError)
    (context : List (String × JSValue)) : EaseSDKError :=
  { name := "NetworkError", code := .NETWORK_ERROR, message := message,
    statusCode := none, cause := cause, context := context }

/-- mapHTTPStatusToErrorCode (src/utils/errors.ts lines 161-184): the switch on
the HTTP status, transcribed case for case. -/
def mapHTTPStatusToErrorCode (status : Int) : ErrorCode :=
  if status = 400 then .INVALID_INPUT
  else if status = 401 then .UNAUTHORIZED
  else if status = 403 then .AUTHENTICATION_FAILED
  else if status = 404 then .API_ERROR
  else if status = 408 then .TIMEOUT_ERROR
  else if status = 429 then .RATE_LIMIT_ERROR
  else if status = 500 ∨ status = 502 ∨ status = 503 then .SERVICE_UNAVAILABLE
  else if status = 504 then .TIMEOUT_ERROR
  else .API_ERROR

/-- createErrorFromAPIResponse (src/utils/errors.ts lines 186-203): kind from the
classifier; message from `responseData?.error`, else `responseData?.message`,
else the literal fallback; the raw body merged into context under responseData. -/
def createErrorFromAPIResponse (statusCode : Int) (responseData : JSValue)
    (context : List (String × JSValue)) : EaseSDKError :=
  let errorCode := mapHTTPStatusToErrorCode statusCode
  let msgVal :=
    let e := optMember responseData "error"
    if truthy e then e
    else
      let m := optMember responseData "message"
      if truthy m then m
      else .vstr ("HTTP " ++ toString statusCode ++ " error")
  { code := errorCode, message := jsToString msgVal, statusCode := some statusCode,
    cause := none, context := context ++ [("responseData", responseData)] }

/-- handleUnknownError (src/utils/errors.ts lines 209-231): identity on values
that are already EaseSDKError; wraps a generic Error as UNKNOWN_ERROR keeping
its message as message and the Error as cause; wraps a non-error value as
UNKNOWN_ERROR with the fixed message and the value spread into context under
originalError. -/
def handleUnknownError (error : Thrown) (context : List (String × JSValue)) : EaseSDKError :=
  match error with
  | .sdkErr e => e
  | .genErr g =>
    { code := .UNKNOWN_ERROR, message := g.message, statusCode := none,
      cause := some g, context := context }
  | .val v =>
    { code := .UNKNOWN_ERROR, message := "An unknown error occurred", statusCode := none,
      cause := none, context := context ++ [("originalError", v)] }

/-! ## Transport core (src/api/index.ts internalApi) -/

/-- The HTTP method union of src/api/index.ts line 22. -/
inductive HttpMethod where
  | GET | POST | PUT | DELETE | PATCH | HEAD | OPTIONS
deriving DecidableEq

/-- The method name as it appears in request contexts. -/
def HttpMethod.str : HttpMethod → String
  | .GET => "GET"
  | .POST => "POST"
  | .PUT => "PUT"
  | .DELETE => "DELETE"
  | .PATCH => "PATCH"
  | .HEAD => "HEAD"
  | .OPTIONS => "OPTIONS"

/-- The ApiResponse envelope (src/api/index.ts lines 13-20): the transport's
uniform result.  Response headers are modelled as key/value pairs. -/
structure ApiResponse where
  success : Bool
  data : Option JSValue := none
  error : Option String := none
  statusCode : Option Int := none
  errorDetails : Option EaseSDKError := none
  headers : Option (List (String × String)) := none

/-- The result of `await response.json()`: a parsed value, or the SyntaxError
the JSON parser threw. -/
inductive JsonBody where
  | parsed (v : JSValue)
  | parseFail (e : GenError)

/-- The outcome of the single underlying `fetch` call of one internalApi
invocation (the network oracle):
  - `response`: fetch resolved with a status, statusText, body parse result and
    response headers;
  - `aborted`: the call was aborted by this invocation's own timeout timer
    (the AbortController is local to the call and nothing else aborts it), so
    an AbortError is thrown at the await;
  - `failed`: fetch rejected with some other thrown value (DNS failure,
    connection refused, ...). -/
inductive FetchOutcome where
  | response (status : Int) (statusText : String) (body : JsonBody)
      (respHeaders : List (String × String))
  | aborted
  | failed (e : Thrown)

/-- `response.ok`: status in the inclusive range 200-299. -/
def okStatus (status : Int) : Bool :=
  200 ≤ status && status ≤ 299

/-- The AbortError a fetch aborted by its AbortController rejects with. -/
def abortError : GenError := ⟨"AbortError", "The operation was aborted."⟩

/-- Behavior of the registered transport observers when the three `_notify`
hooks run (src/core/telemetry.ts lines 14-18: a plain forEach with no guard, so
a callback that throws propagates to the notifier's caller).  `none` means every
registered callback returns normally; `some g` means one throws g. -/
structure ObserverBehavior where
  onRequest : Option GenError
  onResponse : Option GenError
  onError : Option GenError

/-- The default environment: the observer list starts empty, so no hook throws. -/
def quietObservers : ObserverBehavior := ⟨none, none, none⟩

/-- The caller context attached to errors built in internalApi: `{url, method,
headers}` with the raw (pre-resolution) url, as at src/api/index.ts lines 181-185. -/
def requestContext (url : String) (method : HttpMethod)
    (headers : Option (List (String × String))) : List (String × JSValue) :=
  [("url", .vstr url), ("method", .vstr method.str),
   ("headers", match headers with
     | none => .vundefined
     | some hs => .vobj (hs.map fun p => (p.1, .vstr p.2)))]

/-- The `error?.name === 'AbortError'` test of src/api/index.ts line 291. -/
def isAbortNamed : Thrown → Bool
  | .sdkErr e => e.name == "AbortError"
  | .genErr g => g.name == "AbortError"
  | .val (.vobj fs) =>
    (match getProp fs "name" with
     | some (.vstr s) => s == "AbortError"
     | _ => false)
  | .val _ => false

/-- The cause an Error-typed thrown value contributes when passed as the `cause`
argument of a NetworkError (an EaseSDKError cause is viewed through its
name/message; a non-error value contributes nothing usable). -/
def thrownCause : Thrown → Option GenError
  | .sdkErr e => some ⟨e.name, e.message⟩
  | .genErr g => some g
  | .val _ => none

/-- The try block of internalApi (src/api/index.ts lines 136-286), as a function
of the fetch outcome.  A `.error` result is a value thrown inside the try block
(to be handled by the catch block): the AbortError or fetch failure re-raised at
the await, an observer callback throwing out of an inline `_notify` fan-out, or
the `throw netErr` of the 2xx-with-unparseable-body path (line 259). -/
def internalApiTry (url : String) (method : HttpMethod)
    (headers : Option (List (String × String))) (net : FetchOutcome)
    (obs : ObserverBehavior) : Except Thrown ApiResponse :=
  -- _notify.request (line 158); logger.debug and emitLogEvent never throw
  match obs.onRequest with
  | some g => .error (.genErr g)
  | none =>
  match net with
  | .aborted => .error (.genErr abortError)
  | .failed e => .error e
  | .response status statusText body respHeaders =>
    if okStatus status then
      match body with
      | .parseFail jsonError =>
        -- 2xx but response.json() failed (lines 226-260)
        let netErr := NetworkError "Invalid JSON response from server" (some jsonError)
          [("url", .vstr url), ("method", .vstr method.str), ("status", .vnum (.int status))]
        -- _notify.error (line 246), then `throw netErr` (line 259)
        (match obs.onError with
         | some g => .error (.genErr g)
         | none => .error (.sdkErr netErr))
      | .parsed data =>
        -- _notify.response (line 273), then the success envelope (line 286)
        (match obs.onResponse with
         | some g => .error (.genErr g)
         | none => .ok { success := true, data := some data, headers := some respHeaders })
    else
      -- non-OK status (lines 169-221)
      let errorData : JSValue :=
        match body with
        | .parsed j => j
        | .parseFail jsonError =>
          .vobj [("error", .vstr ("HTTP " ++ toString status ++ ": " ++ statusText)),
                 ("statusCode", .vnum (.int status)),
                 ("parseError", .vstr (jsonError.name ++ ": " ++ jsonError.message))]
      let apiError := createErrorFromAPIResponse status errorData
        (requestContext url method headers)
      -- _notify.error (line 203), then the failure envelope (line 216)
      (match obs.onError with
       | some g => .error (.genErr g)
       | none => .ok { success := false, error := some apiError.message,
                       statusCode := some status, errorDetails := some apiError })

/-- The catch block of internalApi (src/api/index.ts lines 287-351).  A `.error`
result is a value thrown inside the catch block itself — only the unguarded
`_notify.error` observer fan-out can do that — and it escapes internalApi. -/
def internalApiCatch (url : String) (method : HttpMethod) (obs : ObserverBehavior)
    (error : Thrown) : Except Thrown ApiResponse :=
  if isAbortNamed error then
    let timeoutErr := NetworkError "Request timed out" (thrownCause error)
      [("url", .vstr url), ("method", .vstr method.str)]
    -- _notify.error (line 304) runs inside the catch block: a throw here escapes
    (match obs.onError with
     | some g => .error (.genErr g)
     | none => .ok { success := false, error := some "Request timed out",
                     errorDetails := some timeoutErr })
  else
    let networkError := handleUnknownError error
      [("url", .vstr url), ("method", .vstr method.str)]
    -- _notify.error (line 335) runs inside the catch block: a throw here escapes
    (match obs.onError with
     | some g => .error (.genErr g)
     | none => .ok { success := false, error := some networkError.message,
                     errorDetails := some networkError })

/-- What one internalApi invocation leaves behind: either a returned envelope or
a value thrown across its boundary, plus whether the timeout timer armed at
entry is still armed after the invocation finished. -/
structure InternalApiResult where
  outcome : Except Thrown ApiResponse
  timerArmed : Bool

/-- internalApi (src/api/index.ts lines 118-355).  The timer is armed by the
setTimeout at line 128; the body runs as try (lines 136-286) / catch (287-351);
the finally block (lines 352-354) runs on every exit path — normal return or
throw — and disarms the timer.  `body`, the relay/absolute-url flags and the
timeout duration do not influence which branch runs; they are kept to mirror
the signature. -/
def internalApi (url : String) (method : HttpMethod) (body : JSValue)
    (headers : Option (List (String × String))) (fromEnclave : Bool)
    (isAbsoluteUrl : Bool) (timeout : Int) (net : FetchOutcome)
    (obs : ObserverBehavior) : InternalApiResult :=
  let result : Except Thrown ApiResponse :=
    match internalApiTry url method headers net obs with
    | .ok resp => .ok resp
    | .error e => internalApiCatch url method obs e
  -- finally: clearTimeout(timeoutId)
  { outcome := result, timerArmed := false }

/-- The ErrorCode carried by a returned failure envelope, if any. -/
def resultErrorCode (r : InternalApiResult) : Option ErrorCode :=
  match r.outcome with
  | .ok env => env.errorDetails.map (fun e => e.code)
  | .error _ => none

/-- The network outcomes internalApi answers with a success envelope: a 2xx
response whose body parsed as JSON. -/
def isSuccessOutcome : FetchOutcome → Bool
  | .response status _ (.parsed _) _ => okStatus status
  | _ => false

/-! ## Wallet aggregator (src/wallet/index.ts, validated snapshot lines 205-493) -/

/-- The normalized ledger entry (src/utils/type.ts Transaction).  The id keeps
the raw chain-native value the code assigns (tx ids are strings in practice). -/
structure Transaction where
  id : JSValue
  type : String
  amount : String
  explorerURL : String

/-- The one api request a wallet operation issues: url, method and JSON body. -/
structure WalletRequest where
  url : String
  method : HttpMethod
  body : JSValue

/-- The network oracle of the wallet layer: the ApiResponse envelope the `api`
transport returns for the issued request. -/
def WalletNet : Type := WalletRequest → ApiResponse

/-- The Etherscan API key constant of src/wallet/index.ts line 210. -/
def ETHERSCAN_API_KEY : String := "82S5SBUBPCKY3PTUX3DP6HDAHTNP1UEJVZ"

/-- The input validation test `typeof x === 'string' && x.length !== 0` of the
wallet entry points (lines 277-283 and 371-377), as a partial projection to the
validated string. -/
def asNonEmptyString : JSValue → Option String
  | .vstr s => if s.length = 0 then none else some s
  | _ => none

/-- JS `===` between a runtime value and a known string. -/
def strictEqStr : JSValue → String → Bool
  | .vstr s, t => s == t
  | _, _ => false

/-- JS uppercasing of an (ASCII) ticker, as a reducible recursion. -/
def toUpperCaseJS (s : String) : String :=
  String.mk (s.data.map Char.toUpper)

/-- JS lowercasing of an (ASCII) address string. -/
def toLowerCaseJS (s : String) : String :=
  String.mk (s.data.map Char.toLower)

/-- Property access lifted into the thrown-value monad. -/
def memberT (v : JSValue) (k : String) : Except Thrown JSValue :=
  (jsMember v k).mapError .genErr

/-- `v.split(" ")[0]`: a TypeError unless v is a string. -/
def jsSplitHead : JSValue → Except Thrown String
  | .vstr s => .ok ((s.splitOn " ").headD "")
  | _ => .error (.genErr ⟨"TypeError", "split is not a function"⟩)

/-- `v.toLowerCase?.()` style access `v?.toLowerCase()`: undefined receivers give
undefined (none); strings lowercase; anything else is a TypeError. -/
def jsOptToLower : JSValue → Except Thrown (Option String)
  | .vnull => .ok none
  | .vundefined => .ok none
  | .vstr s => .ok (some (toLowerCaseJS s))
  | _ => .error (.genErr ⟨"TypeError", "toLowerCase is not a function"⟩)

/-- `arr.some(p)` / `arr.find(p)` receivers: a TypeError unless v is an array. -/
def jsElems : JSValue → Except Thrown (List JSValue)
  | .varr xs => .ok xs
  | _ => .error (.genErr ⟨"TypeError", "not an array"⟩)

/-- Array.prototype.some with an effectful (possibly throwing) callback. -/
def exceptAny {α : Type} (p : α → Except Thrown Bool) : List α → Except Thrown Bool
  | [] => .ok false
  | x :: xs => do
    if (← p x) then pure true else exceptAny p xs

/-- Array.prototype.find with an effectful (possibly throwing) callback. -/
def exceptFind {α : Type} (p : α → Except Thrown Bool) : List α → Except Thrown (Option α)
  | [] => .ok none
  | x :: xs => do
    if (← p x) then pure (some x) else exceptFind p xs

/-- Array.prototype.filter with an effectful (possibly throwing) callback. -/
def exceptFilter {α : Type} (p : α → Except Thrown Bool) : List α → Except Thrown (List α)
  | [] => .ok []
  | x :: xs => do
    let keep ← p x
    let rest ← exceptFilter p xs
    pure (if keep then x :: rest else rest)

/-- Array.prototype.map with an effectful (possibly throwing) callback. -/
def exceptMap {α β : Type} (f : α → Except Thrown β) : List α → Except Thrown (List β)
  | [] => .ok []
  | x :: xs => do
    let y ← f x
    let ys ← exceptMap f xs
    pure (y :: ys)

/-- `maybe?.k || fallback`: the truthy-or fallback applied after an optional
chain, as in `...find(...)?.value || 0`. -/
def truthyOrZero (v : Option JSValue) : JSValue :=
  match v with
  | some w => let field := optMember w "value"; if truthy field then field else .vnum (.int 0)
  | none => .vnum (.int 0)

/-- The `throw (res.errorDetails || new EaseSDKError({code: API_ERROR, message:
prefix + res.error}))` pattern of every wallet request guard. -/
def walletRequestFailure (res : ApiResponse) (messagePrefix : String) : Thrown :=
  .sdkErr (res.errorDetails.getD
    { code := .API_ERROR,
      message := messagePrefix ++ (match res.error with | some m => m | none => "undefined") })

/-- The try-block body of getWalletBalance (lines 285-365) for a validated coin
string c and address a, against the response oracle.  A `.error` result is a
value thrown inside the try block, to be normalized by the catch block. -/
def getWalletBalanceTry (c a : String) (net : WalletNet) : Except Thrown String :=
  let cU := toUpperCaseJS c
  if cU = "EASE" then
    let res := net { url := "https://testnet.ease.tech/v1/chain/get_currency_balance",
                     method := .POST,
                     body := .vobj [("account", .vstr a), ("code", .vstr "eosio.token"),
                                    ("symbol", .vstr "EASE")] }
    if res.success = false || truthyOpt res.data = false then
      .error (walletRequestFailure res "EASE balance request failed: ")
    else
      -- if (!Array.isArray(data) || data.length === 0) return '0'
      match res.data with
      | some (.varr elems) =>
        (match elems with
         | [] => .ok "0"
         | e0 :: _ => jsSplitHead e0)  -- data[0].split(' ')[0]
      | _ => .ok "0"
  else if cU = "BTC" then
    let res := net { url := "https://mempool.space/testnet/api/address/" ++ a,
                     method := .GET, body := .vnull }
    if res.success = false || truthyOpt res.data = false then
      .error (walletRequestFailure res "BTC balance request failed: ")
    else
      let data := res.data.getD .vundefined
      -- if (!data || typeof data.chain_stats !== 'object') return '0'
      if truthy data = false then .ok "0"
      else do
        let cs ← memberT data "chain_stats"
        if jsTypeof cs ≠ "object" then pure "0"
        else do
          -- data.chain_stats.funded_txo_sum - data.chain_stats.spent_txo_sum
          let funded ← memberT cs "funded_txo_sum"
          let spent ← memberT cs "spent_txo_sum"
          let sats := jsSub (toNumber funded) (toNumber spent)
          pure (toFixedSats sats)  -- (sats / 1e8).toFixed(8)
  else if cU = "ETH" then
    let res := net { url := "https://api-sepolia.etherscan.io/api?module=account&action=balance&address="
                            ++ a ++ "&tag=latest&apikey=" ++ ETHERSCAN_API_KEY,
                     method := .GET, body := .vnull }
    if res.success = false || truthyOpt res.data = false then
      .error (walletRequestFailure res "ETH balance request failed: ")
    else
      let data := res.data.getD .vundefined
      -- if (!data || typeof data.result === 'undefined') return '0'
      if truthy data = false then .ok "0"
      else do
        let r ← memberT data "result"
        if jsTypeof r = "undefined" then pure "0"
        else pure (toFixedWei (toNumber r))  -- (Number(data.result) / 1e18).toFixed(8)
  else
    .error (.sdkErr { code := .INVALID_INPUT, message := "Unsupported coin: " ++ c })

/-- getWalletBalance (src/wallet/index.ts lines 277-369): validate the inputs
before anything else (the INVALID_INPUT throws at lines 278-283 happen before
the try block and before any network call — the oracle is not consulted), then
run the coin dispatch and normalize anything thrown through handleUnknownError
with the {coin, address, operation} context (line 367). -/
def getWalletBalance (coin address : JSValue) (net : WalletNet) :
    Except EaseSDKError String :=
  match asNonEmptyString coin with
  | none => .error { code := .INVALID_INPUT, message := "Coin must be a non-empty string." }
  | some c =>
    match asNonEmptyString address with
    | none => .error { code := .INVALID_INPUT, message := "Address must be a non-empty string." }
    | some a =>
      match getWalletBalanceTry c a net with
      | .ok s => .ok s
      | .error t => .error (handleUnknownError t
          [("coin", coin), ("address", address), ("operation", .vstr "getWalletBalance")])

/-- One EASE action to Transaction (lines 409-418): destructure action.act.data,
direction from `to === address`, amount from the quantity string. -/
def easeActionToTx (a : String) (action : JSValue) : Except Thrown Transaction := do
  let act ← memberT action "act"
  let d ← memberT act "data"
  if truthy d = false then
    throw (.genErr ⟨"TypeError", "Cannot destructure act.data"⟩)
  else
    let toV := optMember d "to"
    let quantity := optMember d "quantity"
    let ty := if strictEqStr toV a then "in" else "out"
    let amount ← jsSplitHead quantity
    let id ← memberT action "trx_id"
    pure { id := id, type := ty, amount := amount, explorerURL := "" }

/-- The EASE history filter predicate (line 408):
`a.act?.account === 'eosio.token' && a.act?.name === 'transfer'`. -/
def easeActionIsTransfer (action : JSValue) : Except Thrown Bool := do
  let act ← memberT action "act"
  pure (strictEqStr (optMember act "account") "eosio.token"
        && strictEqStr (optMember act "name") "transfer")

/-- One BTC explorer transaction to Transaction (lines 435-447): direction from
whether some output pays the address; the amount from the paying output (IN) or
the matching spent input's prevout (OUT), defaulting to 0. -/
def btcTxToTx (a : String) (tx : JSValue) : Except Thrown Transaction := do
  let vout ← memberT tx "vout"
  let voutArr ← jsElems vout
  let isIncoming ← exceptAny
    (fun v => do pure (strictEqStr (← memberT v "scriptpubkey_address") a)) voutArr
  let amountVal ←
    if isIncoming then do
      let found ← exceptFind
        (fun v => do pure (strictEqStr (← memberT v "scriptpubkey_address") a)) voutArr
      -- tx.vout.find(...)?.value || 0
      pure (truthyOrZero found)
    else do
      let vin ← memberT tx "vin"
      let vinArr ← jsElems vin
      let found ← exceptFind
        (fun v => do
          let pv ← memberT v "prevout"
          pure (strictEqStr (optMember pv "scriptpubkey_address") a)) vinArr
      pure (truthyOrZero (found.map fun v => optMember v "prevout"))
  let txid ← memberT tx "txid"
  pure { id := txid, type := if isIncoming then "in" else "out",
         amount := toFixedSats (toNumber amountVal),
         explorerURL := "https://mempool.space/testnet/tx/" ++ jsToString txid }

/-- One Etherscan transaction to Transaction (lines 476-484): direction from a
case-insensitive compare of `to` against the address, amount from value/1e18. -/
def ethTxToTx (a : String) (tx : JSValue) : Except Thrown Transaction := do
  let toV ← memberT tx "to"
  let lowered ← jsOptToLower toV
  let ty := (match lowered with
    | some t => if t = toLowerCaseJS a then "in" else "out"
    | none => "out")
  let hash ← memberT tx "hash"
  let value ← memberT tx "value"
  pure { id := hash, type := ty, amount := toFixedWei (toNumber value),
         explorerURL := "https://sepolia.etherscan.io/tx/" ++ jsToString hash }

/-- The try-block body of getWalletHistory (lines 379-489). -/
def getWalletHistoryTry (c a : String) (net : WalletNet) :
    Except Thrown (List Transaction) :=
  let cU := toUpperCaseJS c
  if cU = "EASE" then
    let res := net { url := "https://testnet.ease.tech/v2/history/get_actions?account="
                            ++ a ++ "&limit=20",
                     method := .GET, body := .vnull }
    if res.success = false || truthyOpt res.data = false then
      .error (walletRequestFailure res "EASE history request failed: ")
    else do
      let data := res.data.getD .vundefined
      -- if (!data || !Array.isArray(data.actions)) return []
      if truthy data = false then pure []
      else do
        let actions ← memberT data "actions"
        match actions with
        | .varr acts => do
          let transfers ← exceptFilter easeActionIsTransfer acts
          exceptMap (easeActionToTx a) transfers
        | _ => pure []
  else if cU = "BTC" then
    let res := net { url := "https://mempool.space/testnet/api/address/" ++ a ++ "/txs",
                     method := .GET, body := .vnull }
    if res.success = false || truthyOpt res.data = false then
      .error (walletRequestFailure res "BTC history request failed: ")
    else
      -- const txs = Array.isArray(res.data) ? res.data : []
      let txs := (match res.data with | some (.varr xs) => xs | _ => [])
      exceptMap (btcTxToTx a) txs
  else if cU = "ETH" then
    let res := net { url := "https://api-sepolia.etherscan.io/api?module=account&action=txlist&address="
                            ++ a ++ "&sort=desc&apikey=" ++ ETHERSCAN_API_KEY,
                     method := .GET, body := .vnull }
    if res.success = false || truthyOpt res.data = false then
      .error (walletRequestFailure res "ETH history request failed: ")
    else do
      let data := res.data.getD .vundefined
      let r ← memberT data "result"
      -- if (!Array.isArray(data.result)) return []
      match r with
      | .varr txs => exceptMap (ethTxToTx a) txs
      | _ => pure []
  else
    .error (.sdkErr { code := .INVALID_INPUT, message := "Unsupported coin: " ++ c })

/-- getWalletHistory (src/wallet/index.ts lines 371-493): the same validate /
dispatch / normalize structure as getWalletBalance. -/
def getWalletHistory (coin address : JSValue) (net : WalletNet) :
    Except EaseSDKError (List Transaction) :=
  match asNonEmptyString coin with
  | none => .error { code := .INVALID_INPUT, message := "Coin must be a non-empty string." }
  | some c =>
    match asNonEmptyString address with
    | none => .error { code := .INVALID_INPUT, message := "Address must be a non-empty string." }
    | some a =>
      match getWalletHistoryTry c a net with
      | .ok s => .ok s
      | .error t => .error (handleUnknownError t
          [("coin", coin), ("address", address), ("operation", .vstr "getWalletHistory")])

/-- The ErrorCode of a raised wallet-layer error, if the call raised. -/
def walletErrCode {α : Type} : Except EaseSDKError α → Option ErrorCode
  | .error e => some e.code
  | .ok _ => none

/-- Whether a wallet-layer call returned normally. -/
def walletOk {α : Type} : Except EaseSDKError α → Bool
  | .error _ => false
  | .ok _ => true

/-! ## Claims -/

/-- The status-to-kind table exactly as the spec states it in §4.1 (400 →
INVALID_INPUT, 401 → UNAUTHORIZED, 403 → AUTHENTICATION_FAILED, 404 →
API_ERROR, 408 → TIMEOUT_ERROR, 429 → RATE_LIMIT_ERROR, 500/502/503 →
SERVICE_UNAVAILABLE, 504 → TIMEOUT_ERROR, anything else → API_ERROR).  Written
from the spec's words, to be compared against the code's classifier. -/
def classifySpecTable (s : Int) : ErrorCode :=
  if s = 400 then .INVALID_INPUT
  else if s = 401 then .UNAUTHORIZED
  else if s = 403 then .AUTHENTICATION_FAILED
  else if s = 404 then .API_ERROR
  else if s = 408 then .TIMEOUT_ERROR
  else if s = 429 then .RATE_LIMIT_ERROR
  else if s = 500 ∨ s = 502 ∨ s = 503 then .SERVICE_UNAVAILABLE
  else if s = 504 then .TIMEOUT_ERROR
  else .API_ERROR

/-- C3: the HTTP status classifier is a pure total function on integers (it is a
Lean function into the closed ErrorCode enumeration, so it returns exactly one
kind for every integer), every status outside the tabulated ten maps to
API_ERROR, and the classifier agrees with the §4.1 table at every integer. -/
theorem C3_classify_total_table :
    (∀ s : Int, s ≠ 400 → s ≠ 401 → s ≠ 403 → s ≠ 404 → s ≠ 408 → s ≠ 429 →
      s ≠ 500 → s ≠ 502 → s ≠ 503 → s ≠ 504 →
      mapHTTPStatusToErrorCode s = ErrorCode.API_ERROR) ∧
    (∀ s : Int, mapHTTPStatusToErrorCode s = classifySpecTable s) := by
  constructor
  · intro s h400 h401 h403 h404 h408 h429 h500 h502 h503 h504
    simp [mapHTTPStatusToErrorCode, h400, h401, h403, h404, h408, h429, h500, h502, h503, h504]
  · intro s
    rfl

/-- C3 witness: the teapot status 418 is not in the table and classifies as
API_ERROR. -/
theorem C3_classify_total_table_witness :
    mapHTTPStatusToErrorCode 418 = ErrorCode.API_ERROR :=
  C3_classify_total_table.1 418 (by decide) (by decide) (by decide) (by decide) (by decide)
    (by decide) (by decide) (by decide) (by decide) (by decide)

/-- C4: handleUnknownError returns an EaseSDKError unchanged (idempotent, never
re-wrapped); wraps a generic Error as UNKNOWN_ERROR with the original's message
as message and the original as cause; and wraps any non-error value as
UNKNOWN_ERROR with the fixed message "An unknown error occurred" and the
original value stored in context under originalError. -/
theorem C4_handleUnknownError_normalization :
    (∀ (e : EaseSDKError) (ctx : List (String × JSValue)),
      handleUnknownError (.sdkErr e) ctx = e) ∧
    (∀ (g : GenError) (ctx : List (String × JSValue)),
      (handleUnknownError (.genErr g) ctx).code = ErrorCode.UNKNOWN_ERROR ∧
      (handleUnknownError (.genErr g) ctx).message = g.message ∧
      (handleUnknownError (.genErr g) ctx).cause = some g) ∧
    (∀ (v : JSValue) (ctx : List (String × JSValue)),
      (handleUnknownError (.val v) ctx).code = ErrorCode.UNKNOWN_ERROR ∧
      (handleUnknownError (.val v) ctx).message = "An unknown error occurred" ∧
      getProp (handleUnknownError (.val v) ctx).context "originalError" = some v) := by
  refine ⟨fun e ctx => rfl, fun g ctx => ⟨rfl, rfl, rfl⟩, fun v ctx => ⟨rfl, rfl, ?_⟩⟩
  simp [handleUnknownError, getProp, List.lookup]

/-- Whether an internalApi invocation handed back a success envelope (false for
failure envelopes and for a throw escaping the boundary). -/
def returnedSuccess (r : InternalApiResult) : Bool :=
  match r.outcome with
  | .ok env => env.success
  | .error _ => false

/-- Every envelope the try block can return has exactly one branch populated. -/
theorem internalApiTry_ok_exclusive (url : String) (method : HttpMethod)
    (headers : Option (List (String × String))) (net : FetchOutcome)
    (obs : ObserverBehavior) (env : ApiResponse)
    (h : internalApiTry url method headers net obs = .ok env) :
    (env.success = true ∧ env.data.isSome = true ∧ env.error = none ∧ env.errorDetails = none) ∨
    (env.success = false ∧ env.data = none ∧ env.error.isSome = true ∧
      env.errorDetails.isSome = true) := by
  unfold internalApiTry at h
  repeat' split at h
  all_goals simp_all
  all_goals (subst h; simp)

/-- Every envelope the catch block can return has exactly one branch populated. -/
theorem internalApiCatch_ok_exclusive (url : String) (method : HttpMethod)
    (obs : ObserverBehavior) (e : Thrown) (env : ApiResponse)
    (h : internalApiCatch url method obs e = .ok env) :
    (env.success = true ∧ env.data.isSome = true ∧ env.error = none ∧ env.errorDetails = none) ∨
    (env.success = false ∧ env.data = none ∧ env.error.isSome = true ∧
      env.errorDetails.isSome = true) := by
  unfold internalApiCatch at h
  repeat' split at h
  all_goals simp_all
  all_goals (subst h; simp)

/-- C1 (counterexample): the claim "internalApi never throws across its own
boundary" fails as stated.  The `_notify.error` observer fan-out
(src/core/telemetry.ts lines 14-18) is an unguarded forEach and runs inside the
catch block (src/api/index.ts lines 304, 335); with a registered transport
observer whose onError callback throws, a timed-out call makes internalApi
propagate that throw instead of returning an envelope. -/
theorem C1_observer_throw_escapes :
    (internalApi "/v1/ping" .GET .vnull none false false 5000 .aborted
        ⟨none, none, some ⟨"Error", "observer failed"⟩⟩).outcome
      = .error (.genErr ⟨"Error", "observer failed"⟩) := rfl

/-- C1 (amended): provided no registered transport observer callback throws when
notified (`quietObservers` — the observer list starts empty, and §6 requires
sinks never to throw), internalApi returns a RequestResult envelope for every
input and every outcome of the underlying network call, and the envelope is a
success exactly for a 2xx response with a JSON-parseable body — so every failure
mode (non-2xx classification, parse failure, thrown exception, abort/timeout)
yields an envelope with success = false. -/
theorem C1_amended_envelope_total :
    ∀ (url : String) (method : HttpMethod) (body : JSValue)
      (headers : Option (List (String × String))) (fromEnclave isAbsoluteUrl : Bool)
      (timeout : Int) (net : FetchOutcome),
      (internalApi url method body headers fromEnclave isAbsoluteUrl timeout net
          quietObservers).outcome.isOk = true ∧
      returnedSuccess (internalApi url method body headers fromEnclave isAbsoluteUrl
          timeout net quietObservers) = isSuccessOutcome net := by
  intro url method body headers fe absU tmo net
  cases net with
  | aborted => exact ⟨rfl, rfl⟩
  | failed e =>
    constructor
    · by_cases h : isAbortNamed e <;>
        simp [internalApi, internalApiTry, internalApiCatch, quietObservers, h, Except.isOk, Except.toBool, Except.toBool]
    · by_cases h : isAbortNamed e <;>
        simp [internalApi, internalApiTry, internalApiCatch, quietObservers, h, returnedSuccess,
          isSuccessOutcome]
  | response status statusText bodyR respHeaders =>
    cases bodyR with
    | parsed v =>
      by_cases h : okStatus status <;>
        simp [internalApi, internalApiTry, internalApiCatch, quietObservers, h, Except.isOk, Except.toBool,
          returnedSuccess, isSuccessOutcome]
    | parseFail pe =>
      by_cases h : okStatus status <;>
        simp [internalApi, internalApiTry, internalApiCatch, quietObservers, h, Except.isOk, Except.toBool,
          returnedSuccess, isSuccessOutcome, isAbortNamed, NetworkError, handleUnknownError]

/-- C2 (counterexample): the claim that a timer-aborted call yields errorDetails
of kind TIMEOUT_ERROR fails: the code builds a NetworkError (src/api/index.ts
line 292, src/utils/errors.ts lines 82-92), so the kind is NETWORK_ERROR. -/
theorem C2_timeout_kind_is_network_error :
    resultErrorCode (internalApi "/v1/tx" .GET .vnull none false false 5000 .aborted
        quietObservers) = some ErrorCode.NETWORK_ERROR ∧
    ErrorCode.NETWORK_ERROR ≠ ErrorCode.TIMEOUT_ERROR :=
  ⟨rfl, by decide⟩

/-- C2 (amended): for every call whose underlying network call is aborted by the
call's own timeout timer, internalApi returns (does not throw, observers
permitting) a failure envelope with message "Request timed out", no HTTP status
anywhere, and errorDetails the NetworkError (kind NETWORK_ERROR, not
TIMEOUT_ERROR) built from the AbortError with the {url, method} context. -/
theorem C2_amended_timeout_envelope :
    ∀ (url : String) (method : HttpMethod) (body : JSValue)
      (headers : Option (List (String × String))) (fromEnclave isAbsoluteUrl : Bool)
      (timeout : Int),
      (internalApi url method body headers fromEnclave isAbsoluteUrl timeout .aborted
          quietObservers).outcome
        = .ok { success := false, data := none, error := some "Request timed out",
                statusCode := none,
                errorDetails := some (NetworkError "Request timed out" (some abortError)
                  [("url", .vstr url), ("method", .vstr method.str)]),
                headers := none } := by
  intro url method body headers fe absU tmo
  rfl

/-- C5: envelope exclusivity — every RequestResult envelope internalApi returns
(under any observer behavior and any network outcome) has exactly one branch
populated: success = true with data present and both failure fields absent, or
success = false with errorMessage and errorDetails present and data absent. -/
theorem C5_envelope_exclusivity :
    ∀ (url : String) (method : HttpMethod) (body : JSValue)
      (headers : Option (List (String × String))) (fromEnclave isAbsoluteUrl : Bool)
      (timeout : Int) (net : FetchOutcome) (obs : ObserverBehavior) (env : ApiResponse),
      (internalApi url method body headers fromEnclave isAbsoluteUrl timeout net
          obs).outcome = .ok env →
      (env.success = true ∧ env.data.isSome = true ∧ env.error = none ∧
        env.errorDetails = none) ∨
      (env.success = false ∧ env.data = none ∧ env.error.isSome = true ∧
        env.errorDetails.isSome = true) := by
  intro url method body headers fe absU tmo net obs env h
  unfold internalApi at h
  simp only at h
  split at h
  · exact internalApiTry_ok_exclusive url method headers net obs env (by
      rename_i r heq
      rw [heq]
      exact congrArg _ (Except.ok.inj h))
  · exact internalApiCatch_ok_exclusive url method obs _ env h

/-- C5 witness: the exclusivity disjunction at a concrete successful call. -/
theorem C5_envelope_exclusivity_witness :
    ((⟨true, some (.vobj []), none, none, none, some []⟩ : ApiResponse).success = true ∧
      (⟨true, some (.vobj []), none, none, none, some []⟩ : ApiResponse).data.isSome = true ∧
      (⟨true, some (.vobj []), none, none, none, some []⟩ : ApiResponse).error = none ∧
      (⟨true, some (.vobj []), none, none, none, some []⟩ : ApiResponse).errorDetails = none) ∨
    ((⟨true, some (.vobj []), none, none, none, some []⟩ : ApiResponse).success = false ∧
      (⟨true, some (.vobj []), none, none, none, some []⟩ : ApiResponse).data = none ∧
      (⟨true, some (.vobj []), none, none, none, some []⟩ : ApiResponse).error.isSome = true ∧
      (⟨true, some (.vobj []), none, none, none, some []⟩ : ApiResponse).errorDetails.isSome = true) :=
  C5_envelope_exclusivity "/p" .GET .vnull none false false 5000
    (.response 200 "OK" (.parsed (.vobj [])) []) quietObservers
    ⟨true, some (.vobj []), none, none, none, some []⟩ rfl

/-- C6: a 2xx response whose body fails JSON parsing makes internalApi return
(not throw) a failure envelope whose errorDetails is the NetworkError "Invalid
JSON response from server"; internally the error is raised (`throw netErr`,
src/api/index.ts line 259) and converted by the catch block's generic path,
where handleUnknownError returns the already-typed error unchanged. -/
theorem C6_invalid_json_envelope :
    ∀ (url : String) (method : HttpMethod) (body : JSValue)
      (headers : Option (List (String × String))) (fromEnclave isAbsoluteUrl : Bool)
      (timeout : Int) (status : Int) (statusText : String) (jsonErr : GenError)
      (respHeaders : List (String × String)),
      okStatus status = true →
      (internalApi url method body headers fromEnclave isAbsoluteUrl timeout
          (.response status statusText (.parseFail jsonErr) respHeaders)
          quietObservers).outcome
        = .ok { success := false, data := none,
                error := some "Invalid JSON response from server", statusCode := none,
                errorDetails := some (NetworkError "Invalid JSON response from server"
                  (some jsonErr)
                  [("url", .vstr url), ("method", .vstr method.str),
                   ("status", .vnum (.int status))]),
                headers := none } := by
  intro url method body headers fe absU tmo status statusText jsonErr respHeaders h
  simp [internalApi, internalApiTry, internalApiCatch, quietObservers, h, isAbortNamed,
    NetworkError, handleUnknownError]

/-- C6 witness: the invalid-JSON envelope at a concrete 200 response. -/
theorem C6_invalid_json_envelope_witness :
    okStatus 200 = true ∧
    (internalApi "/v1/user" .GET .vnull none false false 5000
        (.response 200 "OK" (.parseFail ⟨"SyntaxError", "Unexpected end of JSON input"⟩) [])
        quietObservers).outcome
      = .ok { success := false, data := none,
              error := some "Invalid JSON response from server", statusCode := none,
              errorDetails := some (NetworkError "Invalid JSON response from server"
                (some ⟨"SyntaxError", "Unexpected end of JSON input"⟩)
                [("url", .vstr "/v1/user"), ("method", .vstr "GET"),
                 ("status", .vnum (.int 200))]),
              headers := none } :=
  ⟨by decide,
   C6_invalid_json_envelope "/v1/user" .GET .vnull none false false 5000 200 "OK"
     ⟨"SyntaxError", "Unexpected end of JSON input"⟩ [] (by decide)⟩

/-- C7: the timeout timer armed at entry (setTimeout, src/api/index.ts line 128)
is disarmed before the invocation finishes on every exit path — success,
classified HTTP failure, JSON-parse failure, timeout, thrown exception, and
even a throw escaping the boundary — because clearTimeout sits in the finally
block (lines 352-354). -/
theorem C7_timer_always_disarmed :
    ∀ (url : String) (method : HttpMethod) (body : JSValue)
      (headers : Option (List (String × String))) (fromEnclave isAbsoluteUrl : Bool)
      (timeout : Int) (net : FetchOutcome) (obs : ObserverBehavior),
      (internalApi url method body headers fromEnclave isAbsoluteUrl timeout net
          obs).timerArmed = false := by
  intro url method body headers fe absU tmo net obs
  rfl

/-- The one request a BTC balance query issues (src/wallet/index.ts line 316). -/
def btcBalanceReq (a : String) : WalletRequest :=
  { url := "https://mempool.space/testnet/api/address/" ++ a, method := .GET, body := .vnull }

/-- C8: for every successful BTC balance query whose response data carries a
chain_stats object with integer funded_txo_sum and spent_txo_sum, the returned
balance is the string (funded − spent)/1e8 rendered with exactly 8 decimal
places (`formatSats`, the exact value of `(sats / 1e8).toFixed(8)`). -/
theorem C8_btc_balance_formula :
    ∀ (a : String) (net : WalletNet) (res : ApiResponse)
      (dfs cs : List (String × JSValue)) (f s : Int),
      asNonEmptyString (.vstr a) = some a →
      net (btcBalanceReq a) = res →
      res.success = true →
      res.data = some (.vobj dfs) →
      getProp dfs "chain_stats" = some (.vobj cs) →
      getProp cs "funded_txo_sum" = some (.vnum (.int f)) →
      getProp cs "spent_txo_sum" = some (.vnum (.int s)) →
      getWalletBalance (.vstr "BTC") (.vstr a) net = .ok (formatSats (f - s)) := by
  intro a net res dfs cs f s ha hnet hsucc hdata hf hs hsp
  have hb : asNonEmptyString (JSValue.vstr "BTC") = some "BTC" := rfl
  have hu : toUpperCaseJS "BTC" = "BTC" := rfl
  simp only [btcBalanceReq] at hnet
  simp only [getWalletBalance, hb, ha, getWalletBalanceTry, hu]
  simp [hnet, hsucc, hdata, hf, hs, hsp, truthyOpt, truthy, memberT, jsMember, jsTypeof,
    toNumber, jsSub, toFixedSats, Except.mapError, Except.map, Bind.bind, Except.bind,
    pure, Except.pure]

/-- The network oracle of the C8 witness scenario: the mempool.space response
with funded_txo_sum 200000000 and spent_txo_sum 100000000. -/
def btcBalanceNet8 : WalletNet := fun _ =>
  { success := true,
    data := some (.vobj [("chain_stats",
      .vobj [("funded_txo_sum", .vnum (.int 200000000)),
             ("spent_txo_sum", .vnum (.int 100000000))])]) }

/-- C8 witness: the spec's concrete scenario — funded 200000000, spent
100000000 — yields the string "1.00000000". -/
theorem C8_btc_balance_formula_witness :
    asNonEmptyString (.vstr "tb1qaddr") = some "tb1qaddr" ∧
    getWalletBalance (.vstr "BTC") (.vstr "tb1qaddr") btcBalanceNet8 = .ok "1.00000000" :=
  ⟨rfl,
   C8_btc_balance_formula "tb1qaddr" btcBalanceNet8 (btcBalanceNet8 (btcBalanceReq "tb1qaddr"))
     [("chain_stats", .vobj [("funded_txo_sum", .vnum (.int 200000000)),
                             ("spent_txo_sum", .vnum (.int 100000000))])]
     [("funded_txo_sum", .vnum (.int 200000000)), ("spent_txo_sum", .vnum (.int 100000000))]
     200000000 100000000 rfl rfl rfl rfl rfl rfl rfl⟩

/-- The 2xx BTC response whose chain_stats is null. -/
def btcBalanceNetNull : WalletNet := fun _ =>
  { success := true, data := some (.vobj [("chain_stats", .vnull)]) }

/-- C9 (counterexample): the claim "missing or malformed chain_stats — including
null — yields the string 0 and never raises" fails at chain_stats = null.  In
JS `typeof null === 'object'`, so null passes the guard at line 328 and the read
`data.chain_stats.funded_txo_sum` at line 332 throws a TypeError, which the
catch block wraps via handleUnknownError: the call raises (kind UNKNOWN_ERROR)
instead of returning "0". -/
theorem C9_null_chain_stats_raises :
    walletErrCode (getWalletBalance (.vstr "BTC") (.vstr "tb1qnull") btcBalanceNetNull)
        = some ErrorCode.UNKNOWN_ERROR ∧
    walletOk (getWalletBalance (.vstr "BTC") (.vstr "tb1qnull") btcBalanceNetNull) = false :=
  ⟨rfl, rfl⟩

/-- C9 (amended): for every BTC balance query with a 2xx success envelope and
truthy data, if the chain_stats field is absent or its value has a `typeof`
other than "object" (undefined, number, string, boolean), getWalletBalance
returns the string "0" and raises no error.  (A null chain_stats, whose typeof
is "object", instead raises a wrapped TypeError — the counterexample above.) -/
theorem C9_amended_nonobject_chain_stats :
    ∀ (a : String) (net : WalletNet) (res : ApiResponse) (d v : JSValue),
      asNonEmptyString (.vstr a) = some a →
      net (btcBalanceReq a) = res →
      res.success = true →
      res.data = some d →
      truthy d = true →
      jsMember d "chain_stats" = .ok v →
      jsTypeof v ≠ "object" →
      getWalletBalance (.vstr "BTC") (.vstr a) net = .ok "0" := by
  intro a net res d v ha hnet hsucc hdata htr hcs htype
  have hb : asNonEmptyString (JSValue.vstr "BTC") = some "BTC" := rfl
  have hu : toUpperCaseJS "BTC" = "BTC" := rfl
  simp only [btcBalanceReq] at hnet
  simp only [getWalletBalance, hb, ha, getWalletBalanceTry, hu]
  simp [hnet, hsucc, hdata, htr, hcs, htype, truthyOpt, memberT, Except.mapError,
    Except.map, Bind.bind, Except.bind, pure, Except.pure]

/-- The 2xx BTC response carrying an empty data object (chain_stats absent). -/
def btcBalanceNetAbsent : WalletNet := fun _ =>
  { success := true, data := some (.vobj []) }

/-- C9 witness: an absent chain_stats (typeof "undefined") degrades to "0". -/
theorem C9_amended_nonobject_chain_stats_witness :
    asNonEmptyString (.vstr "tb1qabs") = some "tb1qabs" ∧
    getWalletBalance (.vstr "BTC") (.vstr "tb1qabs") btcBalanceNetAbsent = .ok "0" :=
  ⟨rfl,
   C9_amended_nonobject_chain_stats "tb1qabs" btcBalanceNetAbsent
     (btcBalanceNetAbsent (btcBalanceReq "tb1qabs")) (.vobj []) .vundefined
     rfl rfl rfl rfl rfl rfl (by decide)⟩

/-- A response oracle whose answer is never relevant. -/
def idleNet : WalletNet := fun _ => { success := false }

/-- C10: whenever coin or address is not a non-empty string, both wallet entry
points raise an EaseSDKError of kind INVALID_INPUT.  The error is raised by the
validation prologue before the try block, and the conclusion holds for every
network oracle (the two calls are quantified over independent oracles), which
is the embedded form of "the transport is never invoked for such inputs". -/
theorem C10_wallet_input_validation :
    ∀ (coin address : JSValue) (net net2 : WalletNet),
      (asNonEmptyString coin = none ∨ asNonEmptyString address = none) →
      walletErrCode (getWalletBalance coin address net) = some ErrorCode.INVALID_INPUT ∧
      walletErrCode (getWalletHistory coin address net2) = some ErrorCode.INVALID_INPUT := by
  intro coin address net net2 h
  constructor
  · unfold getWalletBalance
    rcases h with h | h
    · simp [h, walletErrCode]
    · cases hc : asNonEmptyString coin <;> simp [hc, h, walletErrCode]
  · unfold getWalletHistory
    rcases h with h | h
    · simp [h, walletErrCode]
    · cases hc : asNonEmptyString coin <;> simp [hc, h, walletErrCode]

/-- C10 witness: an empty coin string is rejected by both entry points. -/
theorem C10_wallet_input_validation_witness :
    (asNonEmptyString (.vstr "") = none ∨ asNonEmptyString (.vstr "x") = none) ∧
    (walletErrCode (getWalletBalance (.vstr "") (.vstr "x") idleNet)
        = some ErrorCode.INVALID_INPUT ∧
      walletErrCode (getWalletHistory (.vstr "") (.vstr "x") idleNet)
        = some ErrorCode.INVALID_INPUT) :=
  ⟨Or.inl rfl,
   C10_wallet_input_validation (.vstr "") (.vstr "x") idleNet idleNet (Or.inl rfl)⟩

end EaseSDK
